import Mathlib

/-!
Verification of the issue-tracker repository (shared/schema.ts and the route
registration module). The zod validation schemas (`insertIssueSchema`,
`updateIssueSchema`) and the six route handlers are embedded from the source.
The storage layer (`storage.ts`), the Google Sheets service and the
`isAuthenticated` middleware are not part of the source tree; where a claim
needs them they are modelled from the specification, and each such definition
says so in its doc comment.
-/

set_option autoImplicit false

namespace Sheet

/-- A JSON-ish runtime value as seen by the zod schemas: the body delivered by
the JSON body parser can hold strings, numbers, booleans and null; `jdate`
stands for a JavaScript `Date` instance (what `z.date()` accepts), and
`jother` stands for any other runtime value (arrays, objects, undefined in a
field position). -/
inductive JVal where
  | jstr (s : String)
  | jnum (n : Int)
  | jbool (b : Bool)
  | jnull
  | jdate (t : Int)
  | jother
  deriving Repr, DecidableEq

/-- A request body for the issue routes, as a record of optionally present
keys. The keys mirror the columns of the `issues` table; `extra` carries any
further unknown keys. A `none` field means the key is absent from the body. -/
structure Payload where
  id : Option JVal := none
  title : Option JVal := none
  type_ : Option JVal := none
  description : Option JVal := none
  impact : Option JVal := none
  status : Option JVal := none
  expectedFixDate : Option JVal := none
  createdBy : Option JVal := none
  updatedBy : Option JVal := none
  createdAt : Option JVal := none
  updatedAt : Option JVal := none
  extra : List (String × JVal) := []
  deriving Repr, DecidableEq

/-- `z.string()` as generated by drizzle-zod for a `text` column: any string
value is accepted, nothing else. -/
def zstring : JVal → Option String
  | .jstr s => some s
  | _ => none

/-- `z.string().max n` as generated by drizzle-zod for a `varchar` column with
a declared length: any string of at most `n` characters. -/
def zvarchar (n : Nat) : JVal → Option String
  | .jstr s => if s.length ≤ n then some s else none
  | _ => none

def isHexDigit (c : Char) : Bool :=
  c.isDigit || (Char.ofNat 97 ≤ c && c ≤ Char.ofNat 102) || (Char.ofNat 65 ≤ c && c ≤ Char.ofNat 70)

/-- The 8-4-4-4-12 hexadecimal shape checked by `z.string().uuid()`, which
drizzle-zod generates for the `uuid` primary-key column. -/
def isUuid (s : String) : Bool :=
  s.data.length == 36 &&
    (List.range 36).all fun k =>
      match s.data.get? k with
      | none => false
      | some c =>
        if k == 8 || k == 13 || k == 18 || k == 23 then c == Char.ofNat 45 else isHexDigit c

def zuuid : JVal → Option String
  | .jstr s => if isUuid s then some s else none
  | _ => none

/-- `z.date().nullable()` for the nullable `timestamp` column
`expected_fix_date`: accepts a Date instance or null. -/
def zdate : JVal → Option (Option Int)
  | .jdate t => some (some t)
  | .jnull => some none
  | _ => none

/-- A required field of a zod object: the key must be present and its value
must pass the column check. -/
def reqField {α : Type} (check : JVal → Option α) : Option JVal → Option α
  | none => none
  | some v => check v

/-- An optional field of a zod object: an absent key parses to `none`, a
present key must pass the column check. -/
def optField {α : Type} (check : JVal → Option α) : Option JVal → Option (Option α)
  | none => some none
  | some v => (check v).map some

/-- The result of `insertIssueSchema.parse`: the five required columns plus
the optional nullable `expectedFixDate` (`none` = key absent, `some none` =
explicit null, `some (some t)` = a date). -/
structure InsertIssue where
  title : String
  type_ : String
  description : String
  impact : String
  status : String
  expectedFixDate : Option (Option Int) := none
  deriving Repr, DecidableEq

/-- `insertIssueSchema` from shared/schema.ts:
`createInsertSchema(issues).omit(id, createdBy, updatedBy, createdAt, updatedAt)`.
drizzle-zod maps each remaining column to a zod field: `title` and
`description` (`text().notNull()`, no default) are required strings; `type`
(`varchar(50).notNull()`), `impact` and `status` (`varchar(20).notNull()`) are
required strings with a maximum length; `expectedFixDate` (nullable
`timestamp`) is an optional nullable Date. The comments in the source naming
enumerated values for type/impact/status produce no zod check. A zod object
strips unknown keys (including the omitted ones) rather than rejecting them.
`none` models a thrown `ZodError`. -/
def insertIssueSchema (p : Payload) : Option InsertIssue := do
  let t ← reqField zstring p.title
  let ty ← reqField (zvarchar 50) p.type_
  let d ← reqField zstring p.description
  let im ← reqField (zvarchar 20) p.impact
  let s ← reqField (zvarchar 20) p.status
  let e ← optField zdate p.expectedFixDate
  pure { title := t, type_ := ty, description := d, impact := im, status := s, expectedFixDate := e }

/-- The result of `updateIssueSchema.parse`: every field optional, including
`id`, which the update schema does not omit. -/
structure UpdateIssue where
  id : Option String := none
  title : Option String := none
  type_ : Option String := none
  description : Option String := none
  impact : Option String := none
  status : Option String := none
  expectedFixDate : Option (Option Int) := none
  deriving Repr, DecidableEq

/-- `updateIssueSchema` from shared/schema.ts:
`createInsertSchema(issues).omit(createdBy, createdAt, updatedBy, updatedAt)`
followed by making every field optional. Unlike `insertIssueSchema`, `id` is
not omitted: a body may carry an `id` (checked as a uuid string) and it
survives into the parse result. -/
def updateIssueSchema (p : Payload) : Option UpdateIssue := do
  let i ← optField zuuid p.id
  let t ← optField zstring p.title
  let ty ← optField (zvarchar 50) p.type_
  let d ← optField zstring p.description
  let im ← optField (zvarchar 20) p.impact
  let s ← optField (zvarchar 20) p.status
  let e ← optField zdate p.expectedFixDate
  pure { id := i, title := t, type_ := ty, description := d, impact := im, status := s,
         expectedFixDate := e.getD none }

/-- A stored Issue record, one row of the `issues` table. Timestamps are
abstract instants (`Int`); nullable columns are `Option`. -/
structure Issue where
  id : String
  title : String
  type_ : String
  description : String
  impact : String
  status : String
  expectedFixDate : Option Int := none
  createdBy : Option String := none
  updatedBy : Option String := none
  createdAt : Int
  updatedAt : Int
  deriving Repr, DecidableEq

/-- Modelled from the spec: `storage.getIssue(id)` (storage.ts is not in the
source tree; only its callers are). Returns the record with the given id. -/
def getIssue (st : List Issue) (id : String) : Option Issue :=
  st.find? fun i => i.id == id

/-- Query filters of GET /api/issues. -/
structure Filters where
  status : Option String := none
  type_ : Option String := none
  search : Option String := none
  deriving Repr, DecidableEq

/-- Case-insensitive substring test, for the `search` filter. -/
def containsCI (haystack needle : String) : Bool :=
  needle.length == 0 || (haystack.toLower.splitOn needle.toLower).length != 1

/-- Modelled from the spec: `storage.getAllIssues(filters)` — filters combine
with logical AND; `search` matches a case-insensitive substring of title or
description; insertion order is kept. -/
def getAllIssues (st : List Issue) (f : Filters) : List Issue :=
  st.filter fun i =>
    (match f.status with | none => true | some s => i.status == s) &&
    (match f.type_ with | none => true | some t => i.type_ == t) &&
    (match f.search with | none => true | some q => containsCI i.title q || containsCI i.description q)

/-- Modelled from the spec: `storage.createIssue(data, actorId)` — assigns the
generated id and server timestamps, sets `createdBy = updatedBy = actorId`.
The validated insert shape always carries `status` (the column is notNull with
no default, hence required in `insertIssueSchema`), so no defaulting of status
can occur here. -/
def createIssue (d : InsertIssue) (actorId : String) (now : Int) (newId : String) : Issue :=
  { id := newId, title := d.title, type_ := d.type_, description := d.description,
    impact := d.impact, status := d.status,
    expectedFixDate := d.expectedFixDate.getD none,
    createdBy := some actorId, updatedBy := some actorId,
    createdAt := now, updatedAt := now }

/-- Merge of one update into one record: each provided field overwrites, the
actor and time stamp the record. `id` is a provided field of the validated
update shape, so it participates in the merge. -/
def mergeIssue (i : Issue) (d : UpdateIssue) (actorId : String) (now : Int) : Issue :=
  { id := d.id.getD i.id,
    title := d.title.getD i.title,
    type_ := d.type_.getD i.type_,
    description := d.description.getD i.description,
    impact := d.impact.getD i.impact,
    status := d.status.getD i.status,
    expectedFixDate := d.expectedFixDate.getD i.expectedFixDate,
    createdBy := i.createdBy,
    updatedBy := some actorId,
    createdAt := i.createdAt,
    updatedAt := now }

/-- Modelled from the spec: `storage.updateIssue(id, partialData, actorId)` —
merges only provided fields, sets `updatedBy = actorId` and `updatedAt = now`;
not-found yields `none`. The partial data is the result of
`updateIssueSchema`, which retains a client-supplied `id`. -/
def updateIssue (st : List Issue) (id : String) (d : UpdateIssue) (actorId : String)
    (now : Int) : Option (Issue × List Issue) :=
  match st.find? (fun i => i.id == id) with
  | none => none
  | some i =>
    some (mergeIssue i d actorId now,
      st.map fun j => if j.id == id then mergeIssue j d actorId now else j)

/-- Modelled from the spec: `storage.deleteIssue(id)` — true iff a record
existed; the record is removed. -/
def deleteIssue (st : List Issue) (id : String) : Bool × List Issue :=
  (st.any (fun i => i.id == id), st.filter fun i => i.id != id)

/-- A User record, one row of the `users` table. -/
structure User where
  id : String
  email : Option String := none
  firstName : Option String := none
  lastName : Option String := none
  profileImageUrl : Option String := none
  createdAt : Int
  updatedAt : Int
  deriving Repr, DecidableEq

/-- Modelled from the spec: `storage.getUser(id)`. -/
def getUser (users : List User) (id : String) : Option User :=
  users.find? fun u => u.id == id

/-- A response body. `jmsg` is an object with a `message` key, `jmsgErrors`
additionally carries the zod error list (details abstracted), `jissue` and
`jissues` are issue JSON given as ordered key-value pairs, `juser` is
`res.json(user)` where the user may be undefined. -/
inductive RBody where
  | empty
  | jmsg (message : String)
  | jmsgErrors (message : String)
  | jissue (fields : List (String × JVal))
  | jissues (items : List (List (String × JVal)))
  | juser (u : Option User)
  deriving Repr, DecidableEq

structure Response where
  status : Nat
  body : RBody
  deriving Repr, DecidableEq

/-- Modelled from the spec: the response the `isAuthenticated` middleware
(replitAuth.ts, not in the source tree) sends when the session is missing,
expired or invalid — an authentication-failure response, HTTP 401. -/
def authFailResponse : Response :=
  { status := 401, body := .jmsg "Unauthorized" }

/-- An observable operation against the Record Store or Mirror Sync, for
tracking what a handler reached. -/
inductive Op where
  | userGet (id : String)
  | storeGet (id : String)
  | storeGetAll
  | storeCreate (id : String)
  | storeUpdate (id : String)
  | storeDelete (id : String)
  | syncCreate (i : Issue)
  | syncUpdate (i : Issue)
  | syncDelete (i : Issue)
  deriving Repr, DecidableEq

def optDateJson : Option Int → JVal
  | none => .jnull
  | some t => .jdate t

def optStrJson : Option String → JVal
  | none => .jnull
  | some s => .jstr s

/-- The object literal built by the public GET handlers (the redacted view):
exactly the keys id, title, type, description, impact, status,
expectedFixDate, createdAt, updatedAt, in source order. -/
def publicIssueJson (i : Issue) : List (String × JVal) :=
  [("id", .jstr i.id), ("title", .jstr i.title), ("type", .jstr i.type_),
   ("description", .jstr i.description), ("impact", .jstr i.impact),
   ("status", .jstr i.status), ("expectedFixDate", optDateJson i.expectedFixDate),
   ("createdAt", .jdate i.createdAt), ("updatedAt", .jdate i.updatedAt)]

/-- `res.json(issue)` on a full record: every column of the `issues` table. -/
def fullIssueJson (i : Issue) : List (String × JVal) :=
  [("id", .jstr i.id), ("title", .jstr i.title), ("type", .jstr i.type_),
   ("description", .jstr i.description), ("impact", .jstr i.impact),
   ("status", .jstr i.status), ("expectedFixDate", optDateJson i.expectedFixDate),
   ("createdBy", optStrJson i.createdBy), ("updatedBy", optStrJson i.updatedBy),
   ("createdAt", .jdate i.createdAt), ("updatedAt", .jdate i.updatedAt)]

/-- GET /api/auth/user: behind `isAuthenticated` (modelled from the spec as a
401 short-circuit on `none`); on success returns the stored user. `sess` is
the outcome of session validation: `some uid` for a valid session. -/
def getApiAuthUser (sess : Option String) (users : List User) : Response × List Op :=
  match sess with
  | none => (authFailResponse, [])
  | some userId => ({ status := 200, body := .juser (getUser users userId) }, [.userGet userId])

/-- GET /api/issues: public (no middleware attached in the source); lists all
issues matching the query filters, mapped through the redacting object
literal. -/
def getApiIssues (f : Filters) (st : List Issue) : Response × List Op :=
  ({ status := 200, body := .jissues ((getAllIssues st f).map publicIssueJson) }, [.storeGetAll])

/-- GET /api/issues/:id: public; 404 when absent, else the redacted record. -/
def getApiIssuesId (id : String) (st : List Issue) : Response × List Op :=
  match getIssue st id with
  | none => ({ status := 404, body := .jmsg "Issue not found" }, [.storeGet id])
  | some issue => ({ status := 200, body := .jissue (publicIssueJson issue) }, [.storeGet id])

/-- POST /api/issues: `isAuthenticated`, then `insertIssueSchema.parse` (a
ZodError yields 400), then `storage.createIssue`, then the awaited sheets
sync. `syncFails` says whether the sync call throws; a throw lands in the
catch block, which logs and answers 500 — the created record stays in the
store. On success 201 with the full record. -/
def postApiIssues (sess : Option String) (body : Payload) (st : List Issue)
    (now : Int) (newId : String) (syncFails : Bool) : Response × List Issue × List Op :=
  match sess with
  | none => (authFailResponse, st, [])
  | some userId =>
    match insertIssueSchema body with
    | none => ({ status := 400, body := .jmsgErrors "Validation error" }, st, [])
    | some validatedData =>
      let issue := createIssue validatedData userId now newId
      let st2 := st ++ [issue]
      if syncFails then
        ({ status := 500, body := .jmsg "Failed to create issue" }, st2,
         [.storeCreate newId, .syncCreate issue])
      else
        ({ status := 201, body := .jissue (fullIssueJson issue) }, st2,
         [.storeCreate newId, .syncCreate issue])

/-- PUT /api/issues/:id: `isAuthenticated`, then `updateIssueSchema.parse`
(ZodError yields 400), then `storage.updateIssue` (404 when absent), then the
awaited sheets sync (a throw yields 500, the update stays committed), else
200 with the full updated record. -/
def putApiIssuesId (sess : Option String) (id : String) (body : Payload) (st : List Issue)
    (now : Int) (syncFails : Bool) : Response × List Issue × List Op :=
  match sess with
  | none => (authFailResponse, st, [])
  | some userId =>
    match updateIssueSchema body with
    | none => ({ status := 400, body := .jmsgErrors "Validation error" }, st, [])
    | some validatedData =>
      match updateIssue st id validatedData userId now with
      | none => ({ status := 404, body := .jmsg "Issue not found" }, st, [.storeUpdate id])
      | some (issue, st2) =>
        if syncFails then
          ({ status := 500, body := .jmsg "Failed to update issue" }, st2,
           [.storeUpdate id, .syncUpdate issue])
        else
          ({ status := 200, body := .jissue (fullIssueJson issue) }, st2,
           [.storeUpdate id, .syncUpdate issue])

/-- DELETE /api/issues/:id: `isAuthenticated`, then the handler fetches the
issue first (needed for the sheets sync), 404 when absent; then
`storage.deleteIssue` (404 when it reports nothing removed), then the awaited
sheets sync with the pre-deletion record (a throw yields 500, the deletion
stays committed), else 204 with an empty body. -/
def deleteApiIssuesId (sess : Option String) (id : String) (st : List Issue)
    (syncFails : Bool) : Response × List Issue × List Op :=
  match sess with
  | none => (authFailResponse, st, [])
  | some _userId =>
    match getIssue st id with
    | none => ({ status := 404, body := .jmsg "Issue not found" }, st, [.storeGet id])
    | some issue =>
      let del := deleteIssue st id
      if del.1 then
        if syncFails then
          ({ status := 500, body := .jmsg "Failed to delete issue" }, del.2,
           [.storeGet id, .storeDelete id, .syncDelete issue])
        else
          ({ status := 204, body := .empty }, del.2,
           [.storeGet id, .storeDelete id, .syncDelete issue])
      else
        ({ status := 404, body := .jmsg "Issue not found" }, del.2, [.storeGet id, .storeDelete id])

/-- A sequence of store-level updates: each element is target id, validated
partial data, actor id, time. A not-found update leaves the store unchanged. -/
def applyUpdates (st : List Issue) : List (String × UpdateIssue × String × Int) → List Issue
  | [] => st
  | (id, d, a, n) :: rest =>
    match updateIssue st id d a n with
    | none => applyUpdates st rest
    | some (_, st2) => applyUpdates st2 rest

/-! Concrete fixtures used by witnesses and counterexamples. -/

/-- A body carrying the five required creation fields as strings. -/
def mkBody (t ty d im s : String) : Payload :=
  { title := some (.jstr t), type_ := some (.jstr ty), description := some (.jstr d),
    impact := some (.jstr im), status := some (.jstr s) }

def uuidA : String := "11111111-1111-4111-8111-111111111111"

def uuidB : String := "22222222-2222-4222-8222-222222222222"

def okBody : Payload := mkBody "Crash on save" "issue" "It crashes" "High" "open"

def okInsert : InsertIssue :=
  { title := "Crash on save", type_ := "issue", description := "It crashes",
    impact := "High", status := "open" }

def issueA : Issue := createIssue okInsert "u1" 0 uuidA

/-- A PUT body that only closes the issue. -/
def closeBody : Payload := { status := some (.jstr "closed") }

def closeData : UpdateIssue := { status := some "closed" }

def issueA2 : Issue := mergeIssue issueA closeData "u2" 5

/-- A creation body omitting `status` entirely. -/
def noStatusBody : Payload :=
  { title := some (.jstr "Crash on save"), type_ := some (.jstr "issue"),
    description := some (.jstr "It crashes"), impact := some (.jstr "High") }

/-- A creation body additionally carrying every mutation-only field plus an
unknown key. -/
def junkBody : Payload :=
  { okBody with
      id := some (.jstr "zzz"), createdBy := some (.jstr "evil"),
      updatedBy := some (.jstr "evil2"), createdAt := some (.jnum 123),
      updatedAt := some .jother, extra := [("hack", .jbool true)] }

/-- A PUT body carrying a client-chosen `id`. -/
def putIdBody : Payload :=
  { id := some (.jstr uuidB), status := some (.jstr "closed") }

/-! Helper lemmas shared by the claim proofs. -/

theorem any_of_find (st : List Issue) (id : String) (i : Issue)
    (h : getIssue st id = some i) : st.any (fun j => j.id == id) = true := by
  unfold getIssue at h
  have hm : i ∈ st := List.mem_of_find?_eq_some h
  have hp : (i.id == id) = true := by simpa using List.find?_some h
  exact List.any_eq_true.mpr ⟨i, hm, hp⟩

theorem updateIssue_preserves (st : List Issue) (id : String) (d : UpdateIssue) (a : String)
    (n : Int) (i2 : Issue) (st2 : List Issue)
    (h : updateIssue st id d a n = some (i2, st2)) :
    i2.updatedBy = some a ∧ i2.updatedAt = n ∧
      st2.map (fun j => (j.createdBy, j.createdAt)) =
        st.map (fun j => (j.createdBy, j.createdAt)) := by
  unfold updateIssue at h
  cases hf : st.find? (fun i => i.id == id) with
  | none => rw [hf] at h; exact absurd h (by simp)
  | some i =>
    rw [hf] at h
    simp only [Option.some.injEq, Prod.mk.injEq] at h
    obtain ⟨h1, h2⟩ := h
    subst h1; subst h2
    refine ⟨rfl, rfl, ?_⟩
    rw [List.map_map]
    apply List.map_congr_left
    intro j _
    cases hc : j.id == id <;> simp [Function.comp, hc, mergeIssue]

theorem applyUpdates_preserves (ups : List (String × UpdateIssue × String × Int)) :
    ∀ st : List Issue,
      (applyUpdates st ups).map (fun j => (j.createdBy, j.createdAt)) =
        st.map (fun j => (j.createdBy, j.createdAt)) := by
  induction ups with
  | nil => intro st; rfl
  | cons u rest ih =>
    intro st
    obtain ⟨id, d, a, n⟩ := u
    unfold applyUpdates
    cases hu : updateIssue st id d a n with
    | none => exact ih st
    | some p =>
      obtain ⟨i2, st2⟩ := p
      rw [ih st2, (updateIssue_preserves st id d a n i2 st2 hu).2.2]

/-! Claim theorems. -/

/-- C1, counterexample: a creation body whose `type`, `impact` and `status`
all lie outside their enumerated sets passes `insertIssueSchema` and the POST
handler answers 201, not 400 — the claim, as stated, is false. -/
theorem c1_counterexample :
    insertIssueSchema (mkBody "t" "banana" "d" "Mega" "weird") =
      some { title := "t", type_ := "banana", description := "d",
             impact := "Mega", status := "weird" } ∧
    (postApiIssues (some "u1") (mkBody "t" "banana" "d" "Mega" "weird") [] 0 uuidA
        false).1.status = 201 :=
  ⟨rfl, rfl⟩

/-- C1, amended: validation never checks enum membership. Any string value
for `type`, `impact` and `status` is accepted, provided only that it respects
the varchar length bounds (50 for type, 20 for impact and status) that
drizzle-zod derives from the column declarations. -/
theorem c1_enum_not_enforced (t ty d im s : String)
    (h1 : ty.length ≤ 50) (h2 : im.length ≤ 20) (h3 : s.length ≤ 20) :
    insertIssueSchema (mkBody t ty d im s) =
      some { title := t, type_ := ty, description := d, impact := im, status := s } := by
  simp [insertIssueSchema, mkBody, reqField, optField, zstring, zvarchar, h1, h2, h3]

/-- C1, witness for the amended theorem at a concrete out-of-enum input. -/
theorem c1_enum_not_enforced_witness :
    ("feature" : String).length ≤ 50 ∧ ("Gigantic" : String).length ≤ 20 ∧
    ("reopened" : String).length ≤ 20 ∧
    insertIssueSchema (mkBody "a title" "feature" "a text" "Gigantic" "reopened") =
      some { title := "a title", type_ := "feature", description := "a text",
             impact := "Gigantic", status := "reopened" } :=
  ⟨by decide, by decide, by decide,
   c1_enum_not_enforced "a title" "feature" "a text" "Gigantic" "reopened"
     (by decide) (by decide) (by decide)⟩

/-- C2, counterexample: a creation body that omits `status` does not create
an issue with status `open`; `insertIssueSchema` rejects it (the column is
notNull with no default, hence required) and the POST handler answers 400
with the store untouched. -/
theorem c2_counterexample :
    insertIssueSchema noStatusBody = none ∧
    postApiIssues (some "u1") noStatusBody [] 0 uuidA false =
      ({ status := 400, body := .jmsgErrors "Validation error" }, [], []) :=
  ⟨rfl, rfl⟩

/-- C2, amended: every creation payload omitting `status` fails validation —
`status` is a required field of `insertIssueSchema`, no default of `open` is
applied anywhere — and the POST handler answers 400 without touching the
store or the mirror. -/
theorem c2_status_required (p : Payload) (hp : p.status = none) :
    insertIssueSchema p = none ∧
    ∀ (uid : String) (st : List Issue) (now : Int) (nid : String) (sf : Bool),
      postApiIssues (some uid) p st now nid sf =
        ({ status := 400, body := .jmsgErrors "Validation error" }, st, []) := by
  have hs : insertIssueSchema p = none := by
    cases h1 : reqField zstring p.title with
    | none => simp [insertIssueSchema, h1]
    | some t =>
      cases h2 : reqField (zvarchar 50) p.type_ with
      | none => simp [insertIssueSchema, h1, h2]
      | some ty =>
        cases h3 : reqField zstring p.description with
        | none => simp [insertIssueSchema, h1, h2, h3]
        | some d =>
          cases h4 : reqField (zvarchar 20) p.impact with
          | none => simp [insertIssueSchema, h1, h2, h3, h4]
          | some im => simp [insertIssueSchema, h1, h2, h3, h4, hp, reqField]
  exact ⟨hs, fun uid st now nid sf => by simp [postApiIssues, hs]⟩

/-- C2, witness for the amended theorem at the concrete status-free body. -/
theorem c2_status_required_witness :
    noStatusBody.status = none ∧
    insertIssueSchema noStatusBody = none ∧
    postApiIssues (some "u1") noStatusBody [] 7 uuidA false =
      ({ status := 400, body := .jmsgErrors "Validation error" }, [], []) :=
  ⟨rfl, (c2_status_required noStatusBody rfl).1,
   (c2_status_required noStatusBody rfl).2 "u1" [] 7 uuidA false⟩

/-- C3, counterexample: with the Record Store create committed and the
awaited Mirror Sync call throwing, the POST handler does not return the 201
success response — the thrown error lands in its catch block, which answers
500, while the created record does stay in the store. -/
theorem c3_counterexample :
    (postApiIssues (some "u1") okBody [] 0 uuidA true).1 =
      { status := 500, body := .jmsg "Failed to create issue" } ∧
    (postApiIssues (some "u1") okBody [] 0 uuidA true).2.1 = [issueA] :=
  ⟨rfl, rfl⟩

/-- C3, amended: when the Mirror Sync call throws after the Record Store
mutation committed, the mutation is not rolled back — the new, updated or
deleted state persists — and the error is logged, but each handler responds
500 with a generic message instead of the success response, because the sync
is awaited inside the try block whose catch maps non-Zod errors to 500. -/
theorem c3_sync_throw_commits (uid pid : String) (p q : Payload) (st : List Issue)
    (now : Int) (nid : String) (data : InsertIssue) (upd : UpdateIssue)
    (i2 : Issue) (st2 : List Issue) (i3 : Issue)
    (hin : insertIssueSchema p = some data)
    (hup : updateIssueSchema q = some upd)
    (hmerge : updateIssue st pid upd uid now = some (i2, st2))
    (hget : getIssue st pid = some i3) :
    postApiIssues (some uid) p st now nid true =
      ({ status := 500, body := .jmsg "Failed to create issue" },
       st ++ [createIssue data uid now nid],
       [.storeCreate nid, .syncCreate (createIssue data uid now nid)]) ∧
    putApiIssuesId (some uid) pid q st now true =
      ({ status := 500, body := .jmsg "Failed to update issue" }, st2,
       [.storeUpdate pid, .syncUpdate i2]) ∧
    deleteApiIssuesId (some uid) pid st true =
      ({ status := 500, body := .jmsg "Failed to delete issue" },
       st.filter (fun j => j.id != pid),
       [.storeGet pid, .storeDelete pid, .syncDelete i3]) := by
  refine ⟨by simp [postApiIssues, hin], by simp [putApiIssuesId, hup, hmerge], ?_⟩
  have ha : st.any (fun j => j.id == pid) = true := any_of_find st pid i3 hget
  simp [deleteApiIssuesId, hget, deleteIssue, ha]

/-- C3, witness for the amended theorem on a one-record store. -/
theorem c3_sync_throw_commits_witness :
    insertIssueSchema okBody = some okInsert ∧
    updateIssueSchema closeBody = some closeData ∧
    updateIssue [issueA] uuidA closeData "u2" 5 = some (issueA2, [issueA2]) ∧
    getIssue [issueA] uuidA = some issueA ∧
    (postApiIssues (some "u2") okBody [issueA] 5 uuidB true =
      ({ status := 500, body := .jmsg "Failed to create issue" },
       [issueA] ++ [createIssue okInsert "u2" 5 uuidB],
       [.storeCreate uuidB, .syncCreate (createIssue okInsert "u2" 5 uuidB)]) ∧
    putApiIssuesId (some "u2") uuidA closeBody [issueA] 5 true =
      ({ status := 500, body := .jmsg "Failed to update issue" }, [issueA2],
       [.storeUpdate uuidA, .syncUpdate issueA2]) ∧
    deleteApiIssuesId (some "u2") uuidA [issueA] true =
      ({ status := 500, body := .jmsg "Failed to delete issue" },
       [issueA].filter (fun j => j.id != uuidA),
       [.storeGet uuidA, .storeDelete uuidA, .syncDelete issueA])) :=
  ⟨rfl, rfl, rfl, rfl,
   c3_sync_throw_commits "u2" uuidA okBody closeBody [issueA] 5 uuidB okInsert
     closeData issueA2 [issueA2] issueA rfl rfl rfl rfl⟩

/-- C4, counterexample: a creation body carrying `id`, `createdBy`,
`updatedBy`, `createdAt`, `updatedAt` and even an unknown key passes
`insertIssueSchema` — zod strips unknown keys instead of rejecting — and the
POST handler answers 201. -/
theorem c4_counterexample :
    insertIssueSchema junkBody = some okInsert ∧
    (postApiIssues (some "u1") junkBody [] 0 uuidA false).1.status = 201 :=
  ⟨rfl, rfl⟩

/-- C4, amended: validation strips the mutation-only fields rather than
rejecting them — any body parses exactly as the same body with `id`,
`createdBy`, `updatedBy`, `createdAt`, `updatedAt` and all unknown keys
removed, so those values never reach the parse result. -/
theorem c4_mutation_fields_stripped (p : Payload) :
    insertIssueSchema p = insertIssueSchema
      { p with
          id := none, createdBy := none, updatedBy := none,
          createdAt := none, updatedAt := none, extra := [] } :=
  rfl

/-- C5, counterexample: a creation body with empty `title` and empty
`description` passes `insertIssueSchema` (drizzle-zod imposes no minimum
length on text columns) and the POST handler answers 201, not 400. -/
theorem c5_counterexample :
    insertIssueSchema (mkBody "" "issue" "" "High" "open") =
      some { title := "", type_ := "issue", description := "",
             impact := "High", status := "open" } ∧
    (postApiIssues (some "u1") (mkBody "" "issue" "" "High" "open") [] 0 uuidA
        false).1.status = 201 :=
  ⟨rfl, rfl⟩

/-- C5, amended: `title` and `description` are only required to be present
string values; the empty string is accepted like any other, so validation
succeeds for every choice of title and description text. -/
theorem c5_empty_text_accepted (t d : String) :
    insertIssueSchema (mkBody t "issue" d "High" "open") =
      some { title := t, type_ := "issue", description := d,
             impact := "High", status := "open" } := by
  have h1 : ("issue" : String).length ≤ 50 := by decide
  have h2 : ("High" : String).length ≤ 20 := by decide
  have h3 : ("open" : String).length ≤ 20 := by decide
  simp [insertIssueSchema, mkBody, reqField, optField, zstring, zvarchar, h1, h2, h3]

/-- C6: both public GET routes answer with issue JSON built from the
redacting object literal only: its key list is exactly the whitelist id,
title, type, description, impact, status, expectedFixDate, createdAt,
updatedAt, and contains neither `createdBy` nor `updatedBy`, for every store
state, filter set and id. -/
theorem c6_redaction (st : List Issue) (f : Filters) (id : String) :
    getApiIssues f st =
      ({ status := 200, body := .jissues ((getAllIssues st f).map publicIssueJson) },
       [.storeGetAll]) ∧
    (∀ i : Issue,
      (publicIssueJson i).map Prod.fst =
        ["id", "title", "type", "description", "impact", "status",
         "expectedFixDate", "createdAt", "updatedAt"] ∧
      "createdBy" ∉ (publicIssueJson i).map Prod.fst ∧
      "updatedBy" ∉ (publicIssueJson i).map Prod.fst) ∧
    (∀ i, getIssue st id = some i →
      getApiIssuesId id st =
        ({ status := 200, body := .jissue (publicIssueJson i) }, [.storeGet id])) := by
  refine ⟨rfl, ?_, ?_⟩
  · intro i
    refine ⟨rfl, ?_, ?_⟩ <;>
    · rw [show (publicIssueJson i).map Prod.fst =
          ["id", "title", "type", "description", "impact", "status",
           "expectedFixDate", "createdAt", "updatedAt"] from rfl]
      decide
  · intro i h
    simp [getApiIssuesId, h]

/-- C6, witness at a one-record store. -/
theorem c6_redaction_witness :
    getIssue [issueA] uuidA = some issueA ∧
    getApiIssuesId uuidA [issueA] =
      ({ status := 200, body := .jissue (publicIssueJson issueA) }, [.storeGet uuidA]) :=
  ⟨rfl, (c6_redaction [issueA] {} uuidA).2.2 issueA rfl⟩

/-- C7: every successful store-level update sets `updatedBy` to the acting
subject and `updatedAt` to that update time, while the `createdBy` and
`createdAt` of every record in the store are untouched; consequently any
sequence of update operations leaves all `createdBy`/`createdAt` values
exactly as at creation. -/
theorem c7_audit_fields :
    (∀ (st : List Issue) (id : String) (d : UpdateIssue) (a : String) (n : Int)
        (i2 : Issue) (st2 : List Issue),
      updateIssue st id d a n = some (i2, st2) →
        i2.updatedBy = some a ∧ i2.updatedAt = n ∧
        st2.map (fun j => (j.createdBy, j.createdAt)) =
          st.map (fun j => (j.createdBy, j.createdAt))) ∧
    (∀ (ups : List (String × UpdateIssue × String × Int)) (st : List Issue),
      (applyUpdates st ups).map (fun j => (j.createdBy, j.createdAt)) =
        st.map (fun j => (j.createdBy, j.createdAt))) :=
  ⟨fun st id d a n i2 st2 h => updateIssue_preserves st id d a n i2 st2 h,
   fun ups st => applyUpdates_preserves ups st⟩

/-- C7, witness: one concrete update on a one-record store. -/
theorem c7_audit_fields_witness :
    updateIssue [issueA] uuidA closeData "u2" 5 = some (issueA2, [issueA2]) ∧
    (issueA2.updatedBy = some "u2" ∧ issueA2.updatedAt = 5 ∧
      [issueA2].map (fun j => (j.createdBy, j.createdAt)) =
        [issueA].map (fun j => (j.createdBy, j.createdAt))) :=
  ⟨rfl, c7_audit_fields.1 [issueA] uuidA closeData "u2" 5 issueA2 [issueA2] rfl⟩

/-- C8: code bug exhibited at the failing input. `updateIssueSchema`, unlike
`insertIssueSchema`, does not omit `id`, so a PUT body carrying an `id`
passes validation with the client-chosen id retained, and the store merge of
provided fields rewrites the identifier of the stored record: after a PUT on
the record `uuidA` with body id `uuidB`, the store holds the record under
`uuidB`, contradicting the immutability of `id` stated by the spec and by
the schema comments. -/
theorem c8_update_id_mutable :
    updateIssueSchema putIdBody = some { id := some uuidB, status := some "closed" } ∧
    (putApiIssuesId (some "u1") uuidA putIdBody [issueA] 5 false).2.1 =
      [{ issueA with id := uuidB, status := "closed", updatedBy := some "u1", updatedAt := 5 }] ∧
    (putApiIssuesId (some "u1") uuidA putIdBody [issueA] 5 false).1.status = 200 :=
  ⟨rfl, rfl, rfl⟩

/-- C9: with a missing, expired or invalid session (session validation
yields `none`), every protected route — POST, PUT, DELETE on issues and GET
/api/auth/user — answers the authentication-failure response with an empty
operation log and an unchanged store, so no Record Store or Mirror Sync
operation runs; the two public GET issue routes carry no session check and
answer 200 (list) or 200/404 (by id) regardless. -/
theorem c9_auth_gate (body : Payload) (st : List Issue) (users : List User)
    (id : String) (now : Int) (nid : String) (sf : Bool) (f : Filters) :
    postApiIssues none body st now nid sf = (authFailResponse, st, []) ∧
    putApiIssuesId none id body st now sf = (authFailResponse, st, []) ∧
    deleteApiIssuesId none id st sf = (authFailResponse, st, []) ∧
    getApiAuthUser none users = (authFailResponse, []) ∧
    (getApiIssues f st).1.status = 200 ∧
    ((getApiIssuesId id st).1.status = 200 ∨ (getApiIssuesId id st).1.status = 404) := by
  refine ⟨rfl, rfl, rfl, rfl, rfl, ?_⟩
  unfold getApiIssuesId
  cases getIssue st id <;> simp

/-- C10: for every DELETE on an issue id with a valid session: when the id
is absent the handler answers 404 and the store is unchanged; otherwise the
handler first fetches the record, `deleteIssue` reports a removal, the store
loses the record, the Mirror Sync delete is triggered with the pre-deletion
record, and the response is 204 with an empty body. -/
theorem c10_delete (uid id : String) (st : List Issue) :
    (getIssue st id = none →
      deleteApiIssuesId (some uid) id st false =
        ({ status := 404, body := .jmsg "Issue not found" }, st, [.storeGet id])) ∧
    (∀ i, getIssue st id = some i →
      (deleteIssue st id).1 = true ∧
      deleteApiIssuesId (some uid) id st false =
        ({ status := 204, body := .empty }, st.filter (fun j => j.id != id),
         [.storeGet id, .storeDelete id, .syncDelete i])) := by
  constructor
  · intro h
    simp [deleteApiIssuesId, h]
  · intro i h
    have ha : st.any (fun j => j.id == id) = true := any_of_find st id i h
    exact ⟨ha, by simp [deleteApiIssuesId, h, deleteIssue, ha]⟩

/-- C10, witness: the absent branch on the empty store and the present
branch on a one-record store. -/
theorem c10_delete_witness :
    getIssue [] uuidA = (none : Option Issue) ∧
    deleteApiIssuesId (some "u1") uuidA [] false =
      ({ status := 404, body := .jmsg "Issue not found" }, [], [.storeGet uuidA]) ∧
    getIssue [issueA] uuidA = some issueA ∧
    ((deleteIssue [issueA] uuidA).1 = true ∧
      deleteApiIssuesId (some "u1") uuidA [issueA] false =
        ({ status := 204, body := .empty }, [issueA].filter (fun j => j.id != uuidA),
         [.storeGet uuidA, .storeDelete uuidA, .syncDelete issueA])) :=
  ⟨rfl, (c10_delete "u1" uuidA []).1 rfl, rfl, (c10_delete "u1" uuidA [issueA]).2 issueA rfl⟩

end Sheet
